import Mathlib

/-!
Shallow embedding of the telewhizlite image-relay bot (src/index.js and the
unnamed variant src/unnamed/part_000): the sliding-window rate limiter
(isRateLimited / recordUpload over the userUploads map) and the upload
pipeline (best-rendition selection, filename resolution, uploadToTelegraph),
together with the quota-relevant part of the photo handler.

Timestamps are modelled as integers (milliseconds); JS number arithmetic on
these values is exact integer arithmetic, and Math.ceil of the division by
1000 and 60 is modelled as exact integer ceiling division by 60000.
-/

/-- UPLOAD_LIMIT = 5 (src/index.js line 27). -/
def UPLOAD_LIMIT : Nat := 5

/-- TIME_WINDOW_MS = 60 * 60 * 1000 (src/index.js line 28). -/
def TIME_WINDOW_MS : Int := 60 * 60 * 1000

/-- Telegram user identifier. -/
abbrev UserId := Nat

/-- The userUploads object (src/index.js line 29): per-user list of upload
timestamps; a user absent from the object is read as the empty list
(`userUploads[userId] || []`), so the state is modelled as a total map with
default `[]`. -/
abbrev QuotaState := UserId → List Int

/-- The record returned by isRateLimited. -/
structure RateLimitResult where
  isLimited : Bool
  timeToWaitMin : Int
deriving Repr, DecidableEq

/-- The pruning filter `userTimestamps.filter(ts => now - ts < TIME_WINDOW_MS)`
(src/index.js line 41). -/
def relevantTimestamps (now : Int) (l : List Int) : List Int :=
  l.filter (fun ts => now - ts < TIME_WINDOW_MS)

/-- Models `Math.min(...relevantTimestamps)` (src/index.js line 45); only ever
applied to a nonempty list (its length is at least UPLOAD_LIMIT there), so
the empty case is junk. -/
def listMin : List Int → Int
  | [] => 0
  | [x] => x
  | x :: y :: rest => min x (listMin (y :: rest))

/-- Models `Math.ceil(a / b)` for integer `a` and positive integer `b`:
exact integer ceiling division. -/
def ceilDiv (a b : Int) : Int := -(Int.ediv (-a) b)

/-- isRateLimited (src/index.js lines 35-51). Takes the configured
OWNER_ID, the calling user, the current time `now = Date.now()` and the
current userUploads state; returns the result record together with the
state after the write-back `userUploads[userId] = relevantTimestamps`
(line 42). -/
def isRateLimited (ownerId userId : UserId) (now : Int) (s : QuotaState) :
    RateLimitResult × QuotaState :=
  if userId = ownerId then
    ({ isLimited := false, timeToWaitMin := 0 }, s)
  else
    let userTimestamps := s userId
    let relevant := relevantTimestamps now userTimestamps
    let s1 : QuotaState := fun u => if u = userId then relevant else s u
    if UPLOAD_LIMIT ≤ relevant.length then
      let oldestTimestamp := listMin relevant
      let timeToWaitMs := oldestTimestamp + TIME_WINDOW_MS - now
      ({ isLimited := true, timeToWaitMin := ceilDiv timeToWaitMs 60000 }, s1)
    else
      ({ isLimited := false, timeToWaitMin := 0 }, s1)

/-- recordUpload (src/index.js lines 53-58): appends the current time to
the calling user sequence (push appends at the end; the `[]`-creation
branch is absorbed by the default-empty reading of the map). -/
def recordUpload (userId : UserId) (now : Int) (s : QuotaState) : QuotaState :=
  fun u => if u = userId then s userId ++ [now] else s u

/-- One element of msg.photo: a rendition of the submitted image. -/
structure PhotoSize where
  file_id : String
  width : Nat
  height : Nat
deriving Repr, DecidableEq

/-- Pixel count of a rendition, the resolution the list is ordered by. -/
def PhotoSize.resolution (p : PhotoSize) : Nat := p.width * p.height

/-- The Fetch-stage selection `msg.photo[msg.photo.length - 1]`
(src/index.js line 138): JS indexing out of range yields undefined,
modelled as none. -/
def bestQualityPhoto (photos : List PhotoSize) : Option PhotoSize :=
  photos[photos.length - 1]?

/-- Accumulates the current path component, restarting at each slash. -/
def basenameAux : List Char → List Char → List Char
  | [], acc => acc.reverse
  | c :: rest, acc =>
    if c = '/' then basenameAux rest [] else basenameAux rest (c :: acc)

/-- Models Node path.basename for slash-separated Telegram file paths
(such as photos/file_123.jpg, with no trailing separator): the last
slash-separated component. -/
def basename (p : String) : String :=
  String.mk (basenameAux p.data [])

/-- The TypeError raised by path.basename when its argument is not a
string (in particular undefined). -/
inductive NameError where
  | typeError
deriving Repr, DecidableEq

/-- The Name-resolution stage `path.basename(fileDetails.file_path)`
(src/index.js line 141). The file_path field of a Telegram getFile result
is optional; when it is absent, path.basename(undefined) throws a
TypeError, which the surrounding try/catch turns into the generic
unexpected-error outcome. There is no fallback filename in src/index.js. -/
def resolveFilename (file_path : Option String) : Except NameError String :=
  match file_path with
  | some p => Except.ok (basename p)
  | none => Except.error NameError.typeError

/-- One element of the JSON array returned by the hosting endpoint; the
src field is absent or a string. -/
structure TelItem where
  src : Option String
deriving Repr, DecidableEq

/-- Failure modes of the axios POST in uploadToTelegraph: axios rejects on
a non-2xx status (httpStatusError carries error.response), on exceeding
the 30000 ms timeout, and on any network error. -/
inductive UploadFailure where
  | httpStatusError (status : Nat)
  | timedOut
  | networkError
deriving Repr, DecidableEq

/-- The response body of a 2xx reply: none models a missing or
non-truthy response.data, some items models a JSON array. -/
abbrev TelBody := Option (List TelItem)

/-- JS truthiness of the string field data[0].src: undefined and the
empty string are falsy. -/
def srcTruthy : Option String → Bool
  | none => false
  | some s => !(s = "")

/-- uploadToTelegraph (src/index.js lines 60-85), as a function of the
outcome of the axios POST. On a fulfilled 2xx response it returns
some (baseUrl ++ src) when response.data, response.data[0] and
response.data[0].src are all truthy, otherwise null (none); every
rejection (non-2xx status, timeout, network error) is caught, logged and
collapsed to null (none). -/
def uploadToTelegraph (resp : Except UploadFailure TelBody) : Option String :=
  match resp with
  | Except.error _ => none
  | Except.ok body =>
    match body with
    | some (item :: _) =>
      match item.src with
      | some s => if s = "" then none else some ("https://telegra.ph" ++ s)
      | none => none
    | _ => none

/-- The quota-relevant effect of one run of the bot.on photo handler
(src/index.js lines 123-172) on the userUploads state. tCheck is
Date.now() inside isRateLimited; telegraphLink is the pipeline outcome
(none covers upload failure and any thrown error, some covers success);
tRecord is Date.now() inside recordUpload, which runs only when
telegraphLink is truthy. -/
def handlePhoto (ownerId userId : UserId) (tCheck tRecord : Int)
    (telegraphLink : Option String) (s : QuotaState) : QuotaState :=
  let checked := isRateLimited ownerId userId tCheck s
  if checked.1.isLimited then checked.2
  else
    match telegraphLink with
    | some _ => recordUpload userId tRecord checked.2
    | none => checked.2

/-- n successive successful owner uploads, each a full handler run
(quota check, then record on success), all at time t. -/
def iterOwnerUploads (ownerId : UserId) (t : Int) : Nat → QuotaState → QuotaState
  | 0, s => s
  | n + 1, s =>
    iterOwnerUploads ownerId t n
      (handlePhoto ownerId ownerId t t (some "https://telegra.ph/file/x.jpg") s)

/-- The empty userUploads state. -/
def emptyUploads : QuotaState := fun _ => []

/-- A state holding a single stale record for user 7: one upload at time
0, examined at time TIME_WINDOW_MS or later. -/
def staleState : QuotaState := fun u => if u = 7 then [0] else []

/-- A state in which user 7 holds four in-window records (times 10),
one slot below the limit of five. -/
def raceState : QuotaState := fun u => if u = 7 then [10, 10, 10, 10] else []

/-- First of two interleaved checks for user 7 at time 20 (owner is 1). -/
def raceCheck1 : RateLimitResult × QuotaState := isRateLimited 1 7 20 raceState

/-- Second check for user 7, run before either handler records: the
handler awaits the fetch and the upload between its check and its record,
so the event loop can run the second check first. -/
def raceCheck2 : RateLimitResult × QuotaState := isRateLimited 1 7 20 raceCheck1.2

/-- Both pipelines then succeed and record (at time 100). -/
def raceFinal : QuotaState := recordUpload 7 100 (recordUpload 7 100 raceCheck2.2)

/-- A state in which user 7 has been recorded exactly five times (the
limit), all in-window at time 10. -/
def fiveState : QuotaState := fun u => if u = 7 then [0, 0, 0, 0, 0] else []

/-- A state agreeing with staleState for user 7 but differing elsewhere. -/
def staleStateVariant : QuotaState := fun u => if u = 7 then [0] else [99]

/-- A low-resolution rendition. -/
def demoLow : PhotoSize := { file_id := "low", width := 90, height := 90 }

/-- A high-resolution rendition. -/
def demoHigh : PhotoSize := { file_id := "high", width := 1280, height := 960 }

/-- A two-element msg.photo list, ordered ascending by resolution. -/
def demoPhotos : List PhotoSize := [demoLow, demoHigh]

/-! ### Helper lemmas -/

theorem listMin_mem : ∀ (l : List Int), l ≠ [] → listMin l ∈ l
  | [x], _ => by simp [listMin]
  | x :: y :: rest, _ => by
    have ih := listMin_mem (y :: rest) (by simp)
    simp only [listMin]
    rcases min_cases x (listMin (y :: rest)) with ⟨h1, _⟩ | ⟨h1, _⟩ <;> rw [h1]
    · exact List.mem_cons_self _ _
    · exact List.mem_cons_of_mem _ ih

theorem listMin_le : ∀ (l : List Int), ∀ x ∈ l, listMin l ≤ x
  | [], z, hz => by simp at hz
  | [x], z, hz => by
    simp at hz
    simp [listMin, hz]
  | x :: y :: rest, z, hz => by
    have ih := listMin_le (y :: rest)
    simp only [listMin]
    rcases List.mem_cons.mp hz with rfl | hz2
    · exact min_le_left _ _
    · exact le_trans (min_le_right _ _) (ih z hz2)

theorem min_foldl_min (rest : List Int) :
    ∀ x y : Int, min x (rest.foldl min y) = rest.foldl min (min x y) := by
  induction rest with
  | nil => intro x y; rfl
  | cons z rest2 ih =>
    intro x y
    simp only [List.foldl_cons]
    rw [ih x (min y z), min_assoc]

theorem listMin_eq_foldl : ∀ (x : Int) (xs : List Int),
    listMin (x :: xs) = xs.foldl min x
  | _, [] => rfl
  | x, y :: rest => by
    simp only [listMin, List.foldl_cons]
    rw [listMin_eq_foldl y rest, min_foldl_min]

theorem min?_eq_listMin : ∀ (l : List Int), l ≠ [] → l.min? = some (listMin l)
  | [], h => absurd rfl h
  | x :: xs, _ => by rw [List.min?, listMin_eq_foldl]

theorem ceilDiv_eq_rat_ceil (a : Int) :
    ceilDiv a 60000 = ⌈(a : ℚ) / (60000 : ℚ)⌉ := by
  have h1 : ((a : ℚ) / (60000 : ℚ)) = -(((-a : ℤ) : ℚ) / ((60000 : ℕ) : ℚ)) := by
    push_cast; ring
  rw [h1, Int.ceil_neg, Rat.floor_intCast_div_natCast]
  norm_num [ceilDiv]
  rfl

theorem ceilDiv_bounds (a b : Int) (hb : 0 < b) :
    (ceilDiv a b - 1) * b < a ∧ a ≤ ceilDiv a b * b := by
  have hquot := Int.ediv_add_emod (-a) b
  have hr0 : 0 ≤ (-a) % b := Int.emod_nonneg _ (by omega)
  have hrb : (-a) % b < b := Int.emod_lt_of_pos _ hb
  unfold ceilDiv
  have he : Int.ediv (-a) b = -a / b := rfl
  rw [he]
  constructor <;> nlinarith [hquot, hr0, hrb]

theorem ceilDiv_pos (a b : Int) (ha : 0 < a) (hb : 0 < b) : 1 ≤ ceilDiv a b := by
  have h := ceilDiv_bounds a b hb
  nlinarith [h.1, h.2]

theorem isRateLimited_owner (o : UserId) (now : Int) (s : QuotaState) :
    isRateLimited o o now s = ({ isLimited := false, timeToWaitMin := 0 }, s) := by
  simp [isRateLimited]

theorem isRateLimited_ne_owner (o u : UserId) (now : Int) (s : QuotaState)
    (h : u ≠ o) :
    isRateLimited o u now s =
      (if UPLOAD_LIMIT ≤ (relevantTimestamps now (s u)).length then
        ({ isLimited := true,
           timeToWaitMin :=
             ceilDiv (listMin (relevantTimestamps now (s u)) + TIME_WINDOW_MS - now)
               60000 },
         fun v => if v = u then relevantTimestamps now (s u) else s v)
      else
        ({ isLimited := false, timeToWaitMin := 0 },
         fun v => if v = u then relevantTimestamps now (s u) else s v)) := by
  simp only [isRateLimited, if_neg h]

theorem handlePhoto_none (o u : UserId) (tc tr : Int) (s : QuotaState) :
    handlePhoto o u tc tr none s = (isRateLimited o u tc s).2 := by
  show (if (isRateLimited o u tc s).1.isLimited then (isRateLimited o u tc s).2
    else (isRateLimited o u tc s).2) = (isRateLimited o u tc s).2
  split <;> rfl

theorem handlePhoto_owner_success (o : UserId) (tc tr : Int) (lnk : String)
    (s : QuotaState) :
    handlePhoto o o tc tr (some lnk) s = recordUpload o tr s := by
  unfold handlePhoto
  rw [isRateLimited_owner]
  rfl

theorem relevantTimestamps_idem (now : Int) (l : List Int) :
    relevantTimestamps now (relevantTimestamps now l) = relevantTimestamps now l := by
  simp [relevantTimestamps, List.filter_filter]

theorem pairwise_res_le_getLast :
    ∀ (l : List PhotoSize) (q : PhotoSize),
      l.Pairwise (fun a b => a.resolution ≤ b.resolution) →
      l.getLast? = some q → ∀ p ∈ l, p.resolution ≤ q.resolution
  | [], _, _, hq => by simp at hq
  | [x], q, _, hq => by
    simp at hq
    subst hq
    intro p hp
    simp at hp
    simp [hp]
  | x :: y :: rest, q, hpw, hq => by
    have hpw2 := List.pairwise_cons.mp hpw
    have hq2 : (y :: rest).getLast? = some q := by
      rw [← hq, List.getLast?_cons_cons]
    have ih := pairwise_res_le_getLast (y :: rest) q hpw2.2 hq2
    intro p hp
    rcases List.mem_cons.mp hp with rfl | hp2
    · have hqmem : q ∈ y :: rest := by
        rcases List.mem_getLast?_eq_getLast (Option.mem_def.mpr hq2) with ⟨hne, hqe⟩
        rw [hqe]
        exact List.getLast_mem hne
      exact hpw2.1 q hqmem
    · exact ih p hp2

/-! ### Claim theorems -/

/-- C1: for every non-owner identity whose pruned record count at time now
is at least UPLOAD_LIMIT, isRateLimited returns not-allowed with
timeToWaitMin equal to the exact ceiling of (m + TIME_WINDOW_MS - now)
over one minute (60000 ms), where m is the single oldest (minimum)
remaining timestamp, and this wait is at least 1. -/
theorem C1_limit_wait_ceiling (o u : UserId) (now : Int) (s : QuotaState)
    (hown : u ≠ o)
    (hcount : UPLOAD_LIMIT ≤ (relevantTimestamps now (s u)).length) :
    (isRateLimited o u now s).1.isLimited = true ∧
    (relevantTimestamps now (s u)).min? =
      some (listMin (relevantTimestamps now (s u))) ∧
    (isRateLimited o u now s).1.timeToWaitMin =
      ⌈((listMin (relevantTimestamps now (s u)) + TIME_WINDOW_MS - now : Int) : ℚ)
        / (60000 : ℚ)⌉ ∧
    1 ≤ (isRateLimited o u now s).1.timeToWaitMin := by
  have hne : relevantTimestamps now (s u) ≠ [] := by
    intro h0
    rw [h0] at hcount
    simp [UPLOAD_LIMIT] at hcount
  have hmem := listMin_mem _ hne
  have hlt : now - listMin (relevantTimestamps now (s u)) < TIME_WINDOW_MS := by
    have hmem2 := hmem
    simp only [relevantTimestamps, List.mem_filter, decide_eq_true_eq] at hmem2
    exact hmem2.2
  have hpos : 0 < listMin (relevantTimestamps now (s u)) + TIME_WINDOW_MS - now := by
    omega
  rw [isRateLimited_ne_owner o u now s hown, if_pos hcount]
  exact ⟨rfl, min?_eq_listMin _ hne, ceilDiv_eq_rat_ceil _,
    ceilDiv_pos _ _ hpos (by norm_num)⟩

/-- Witness for C1: user 7 (owner 1) with five records at time 0, checked
at time 10. -/
theorem C1_limit_wait_ceiling_witness :
    ((7 : UserId) ≠ 1) ∧
    (UPLOAD_LIMIT ≤ (relevantTimestamps 10 (fiveState 7)).length) ∧
    ((isRateLimited 1 7 10 fiveState).1.isLimited = true ∧
     (relevantTimestamps 10 (fiveState 7)).min? =
       some (listMin (relevantTimestamps 10 (fiveState 7))) ∧
     (isRateLimited 1 7 10 fiveState).1.timeToWaitMin =
       ⌈((listMin (relevantTimestamps 10 (fiveState 7)) + TIME_WINDOW_MS - 10 : Int) : ℚ)
         / (60000 : ℚ)⌉ ∧
     1 ≤ (isRateLimited 1 7 10 fiveState).1.timeToWaitMin) :=
  ⟨by decide, by decide, C1_limit_wait_ceiling 1 7 10 fiveState (by decide) (by decide)⟩

/-- C2: for every non-owner identity the check stores back exactly the
records younger than TIME_WINDOW_MS relative to now, the verdict depends
only on the count of those remaining records, and a record made at t0 is
not among the remaining records of a check performed at
t0 + TIME_WINDOW_MS + 1. -/
theorem C2_prune_window (o u : UserId) (now t0 : Int) (s : QuotaState)
    (hown : u ≠ o) :
    (isRateLimited o u now s).2 u =
      (s u).filter (fun ts => now - ts < TIME_WINDOW_MS) ∧
    ((isRateLimited o u now s).1.isLimited = true ↔
      UPLOAD_LIMIT ≤ ((s u).filter (fun ts => now - ts < TIME_WINDOW_MS)).length) ∧
    t0 ∉ relevantTimestamps (t0 + TIME_WINDOW_MS + 1) (s u) := by
  refine ⟨?_, ?_, ?_⟩
  · rw [isRateLimited_ne_owner o u now s hown]
    split <;> simp [relevantTimestamps]
  · rw [isRateLimited_ne_owner o u now s hown]
    by_cases hc : UPLOAD_LIMIT ≤ (relevantTimestamps now (s u)).length
    · rw [if_pos hc]
      constructor
      · intro _
        simpa [relevantTimestamps] using hc
      · intro _
        rfl
    · rw [if_neg hc]
      constructor
      · intro h0
        exact Bool.noConfusion h0
      · intro h1
        exact absurd (by simpa [relevantTimestamps] using h1) hc
  · intro hmem
    simp only [relevantTimestamps, List.mem_filter, decide_eq_true_eq] at hmem
    have h2 := hmem.2
    simp only [TIME_WINDOW_MS] at h2
    omega

/-- Witness for C2: user 7 (owner 1), five records at 0 checked at time
10, and the t0 = 42 instance of the window-exclusion fact. -/
theorem C2_prune_window_witness :
    ((7 : UserId) ≠ 1) ∧
    ((isRateLimited 1 7 10 fiveState).2 7 =
       (fiveState 7).filter (fun ts => (10 : Int) - ts < TIME_WINDOW_MS) ∧
     ((isRateLimited 1 7 10 fiveState).1.isLimited = true ↔
       UPLOAD_LIMIT ≤
         ((fiveState 7).filter (fun ts => (10 : Int) - ts < TIME_WINDOW_MS)).length) ∧
     (42 : Int) ∉ relevantTimestamps (42 + TIME_WINDOW_MS + 1) (fiveState 7)) :=
  ⟨by decide, C2_prune_window 1 7 10 42 fiveState (by decide)⟩

/-- C5: for the privileged owner identity the quota check always returns
allowed (isLimited = false) with timeToWaitMin = 0, whatever the stored
state. -/
theorem C5_owner_exempt (o : UserId) (now : Int) (s : QuotaState) :
    (isRateLimited o o now s).1.isLimited = false ∧
    (isRateLimited o o now s).1.timeToWaitMin = 0 := by
  rw [isRateLimited_owner]
  exact ⟨rfl, rfl⟩

/-- C3 counterexample: user 7 (owner 1) holds one stale record (time 0);
a handler run checking at time TIME_WINDOW_MS = 3600000 whose pipeline
fails leaves the stored sequence pruned to [], not exactly the [0] it was
before the attempt. -/
theorem C3_failed_upload_cex :
    ¬ (handlePhoto 1 7 3600000 3600000 none staleState) 7 = staleState 7 := by
  decide

/-- C3 amended: on a Failure outcome record is never invoked: the stored
sequence for the identity after the attempt is its pre-attempt sequence
pruned to the window (nothing is appended), every other identity is
unchanged, and the in-window record count of the identity is unchanged. -/
theorem C3_failed_upload_no_record (o u v : UserId) (tc tr : Int)
    (s : QuotaState) (hu : u ≠ o) (hv : v ≠ u) :
    (handlePhoto o u tc tr none s) u = relevantTimestamps tc (s u) ∧
    (handlePhoto o u tc tr none s) v = s v ∧
    relevantTimestamps tc ((handlePhoto o u tc tr none s) u) =
      relevantTimestamps tc (s u) := by
  have hstate : (isRateLimited o u tc s).2 u = relevantTimestamps tc (s u) ∧
      (isRateLimited o u tc s).2 v = s v := by
    rw [isRateLimited_ne_owner o u tc s hu]
    split <;> exact ⟨by simp, by simp [hv]⟩
  rw [handlePhoto_none]
  exact ⟨hstate.1, hstate.2, by rw [hstate.1, relevantTimestamps_idem]⟩

/-- Witness for the amended C3: user 7, observer identity 5, one stale
record, failed pipeline at time 3600000. -/
theorem C3_failed_upload_no_record_witness :
    ((7 : UserId) ≠ 1) ∧ ((5 : UserId) ≠ 7) ∧
    ((handlePhoto 1 7 3600000 3600000 none staleState) 7 =
       relevantTimestamps 3600000 (staleState 7) ∧
     (handlePhoto 1 7 3600000 3600000 none staleState) 5 = staleState 5 ∧
     relevantTimestamps 3600000 ((handlePhoto 1 7 3600000 3600000 none staleState) 7) =
       relevantTimestamps 3600000 (staleState 7)) :=
  ⟨by decide, by decide,
    C3_failed_upload_no_record 1 7 5 3600000 3600000 staleState (by decide) (by decide)⟩

/-- C4: the Submit stage yields some (baseUrl ++ src) exactly when the
request fulfilled with a body whose first element carries a truthy src
string; every rejection (non-success HTTP status, timeout, network error)
and every malformed body yields none, the single generic failure result. -/
theorem C4_submit_outcome (resp : Except UploadFailure TelBody) :
    (∀ url : String, uploadToTelegraph resp = some url ↔
      ∃ (s : String) (rest : List TelItem),
        resp = Except.ok (some ({ src := some s } :: rest)) ∧ s ≠ "" ∧
        url = "https://telegra.ph" ++ s) ∧
    uploadToTelegraph (Except.ok (some [{ src := some "/file/abc.jpg" }])) =
      some "https://telegra.ph/file/abc.jpg" ∧
    uploadToTelegraph (Except.error (UploadFailure.httpStatusError 500)) = none ∧
    uploadToTelegraph (Except.error UploadFailure.timedOut) = none ∧
    uploadToTelegraph (Except.error UploadFailure.networkError) = none ∧
    uploadToTelegraph (Except.ok none) = none ∧
    uploadToTelegraph (Except.ok (some [])) = none ∧
    uploadToTelegraph (Except.ok (some [{ src := none }])) = none ∧
    uploadToTelegraph (Except.ok (some [{ src := some "" }])) = none := by
  refine ⟨?_, rfl, rfl, rfl, rfl, rfl, rfl, rfl, rfl⟩
  intro url
  constructor
  · intro h
    rcases resp with e | body
    · simp [uploadToTelegraph] at h
    rcases body with _ | items
    · simp [uploadToTelegraph] at h
    rcases items with _ | ⟨item, rest⟩
    · simp [uploadToTelegraph] at h
    rcases item with ⟨src⟩
    rcases src with _ | s
    · simp [uploadToTelegraph] at h
    by_cases hs : s = ""
    · simp [uploadToTelegraph, hs] at h
    · simp only [uploadToTelegraph, if_neg hs] at h
      exact ⟨s, rest, rfl, hs, (Option.some.inj h).symm⟩
  · rintro ⟨s2, rest, rfl, hs, rfl⟩
    simp [uploadToTelegraph, hs]

/-- C6: for a nonempty msg.photo list ordered ascending by resolution,
the handler selects exactly the last entry, and under the ordering
convention that entry has maximal resolution among the renditions. -/
theorem C6_selects_last (photos : List PhotoSize) (q p : PhotoSize)
    (hsorted : photos.Pairwise (fun a b => a.resolution ≤ b.resolution))
    (hlast : photos.getLast? = some q) (hp : p ∈ photos) :
    bestQualityPhoto photos = some q ∧ p.resolution ≤ q.resolution := by
  constructor
  · rw [bestQualityPhoto, ← List.getLast?_eq_getElem?, hlast]
  · exact pairwise_res_le_getLast photos q hsorted hlast p hp

/-- Witness for C6: a two-element ascending rendition list. -/
theorem C6_selects_last_witness :
    (demoPhotos.Pairwise (fun a b => a.resolution ≤ b.resolution)) ∧
    (demoPhotos.getLast? = some demoHigh) ∧ (demoLow ∈ demoPhotos) ∧
    (bestQualityPhoto demoPhotos = some demoHigh ∧
     demoLow.resolution ≤ demoHigh.resolution) :=
  ⟨by decide, by decide, by decide,
    C6_selects_last demoPhotos demoHigh demoLow (by decide) (by decide) (by decide)⟩

/-- C7: the code evaluated on the interleaving check, check, record,
record for user 7 with exactly one quota slot remaining: both checks
observe allowed, both uploads are admitted, and the final in-window count
exceeds UPLOAD_LIMIT. The handler awaits the fetch and the submit between
its quota check and its record, so the event loop can realise this
schedule; no per-identity guard exists in the source. -/
theorem C7_race_both_admitted :
    raceCheck1.1.isLimited = false ∧
    raceCheck2.1.isLimited = false ∧
    raceFinal 7 = [10, 10, 10, 10, 100, 100] ∧
    UPLOAD_LIMIT < (relevantTimestamps 100 (raceFinal 7)).length := by
  decide

/-- C8 counterexample: with one stale record for user 7, the check at
time 3600000 writes the pruned list back into the store: the stored state
changes although record was never called. -/
theorem C8_check_mutates_cex :
    ¬ (isRateLimited 1 7 3600000 staleState).2 7 = staleState 7 := by
  decide

/-- C8 amended: the check mutates the stored state only by pruning the
checked identity: a non-owner check replaces that identity sequence with
its in-window filter and touches no other identity, an owner check leaves
the whole state unchanged, and the verdict depends only on the checked
identity part of the stored state and on now. -/
theorem C8_check_prune_only (o u v : UserId) (now : Int) (s s2 : QuotaState)
    (hu : u ≠ o) (hv : v ≠ u) (hagree : s2 u = s u) :
    (isRateLimited o u now s).2 u = relevantTimestamps now (s u) ∧
    (isRateLimited o u now s).2 v = s v ∧
    (isRateLimited o o now s).2 = s ∧
    (isRateLimited o u now s).1 = (isRateLimited o u now s2).1 := by
  refine ⟨?_, ?_, ?_, ?_⟩
  · rw [isRateLimited_ne_owner o u now s hu]
    split <;> simp
  · rw [isRateLimited_ne_owner o u now s hu]
    split <;> simp [hv]
  · rw [isRateLimited_owner]
  · rw [isRateLimited_ne_owner o u now s hu,
      isRateLimited_ne_owner o u now s2 hu, hagree]
    split <;> rfl

/-- Witness for the amended C8: user 7 with a stale record, observer 5,
and a second state agreeing with the first on user 7. -/
theorem C8_check_prune_only_witness :
    ((7 : UserId) ≠ 1) ∧ ((5 : UserId) ≠ 7) ∧
    (staleStateVariant 7 = staleState 7) ∧
    ((isRateLimited 1 7 3600000 staleState).2 7 =
       relevantTimestamps 3600000 (staleState 7) ∧
     (isRateLimited 1 7 3600000 staleState).2 5 = staleState 5 ∧
     (isRateLimited 1 1 3600000 staleState).2 = staleState ∧
     (isRateLimited 1 7 3600000 staleState).1 =
       (isRateLimited 1 7 3600000 staleStateVariant).1) :=
  ⟨by decide, by decide, by decide,
    C8_check_prune_only 1 7 5 3600000 staleState staleStateVariant
      (by decide) (by decide) (by decide)⟩

/-- C9 counterexample: when the path metadata is absent, the Name stage
of src/index.js raises a TypeError instead of falling back to a generic
name such as image.jpg: the pipeline does fail at this stage. -/
theorem C9_name_no_fallback_cex :
    resolveFilename none = Except.error NameError.typeError ∧
    resolveFilename none ≠ Except.ok "image.jpg" :=
  ⟨rfl, fun h => Except.noConfusion h⟩

/-- C9 amended: src/index.js derives the upload filename from the source
file path metadata via basename; when that metadata is unavailable the
stage raises a TypeError (caught by the generic error handler, failing
the pipeline) rather than falling back to a generic name. -/
theorem C9_name_from_path_only (q : String) :
    resolveFilename (some q) = Except.ok (basename q) ∧
    basename "photos/file_123.jpg" = "file_123.jpg" ∧
    resolveFilename none = Except.error NameError.typeError := by
  refine ⟨rfl, ?_, rfl⟩
  decide

/-- C10: each successful owner upload appends its timestamp through
record while the owner check leaves the whole state untouched (it returns
before the pruning step), so the owner stored sequence gains one entry
per successful upload and, after six uploads from empty, exceeds
UPLOAD_LIMIT. -/
theorem C10_owner_growth (o : UserId) (t : Int) (n : Nat) (s : QuotaState) :
    (isRateLimited o o t s).2 = s ∧
    (handlePhoto o o t t (some "https://telegra.ph/file/x.jpg") s) o = s o ++ [t] ∧
    (iterOwnerUploads o t n s) o = s o ++ List.replicate n t ∧
    UPLOAD_LIMIT < ((iterOwnerUploads 1 0 6 emptyUploads) 1).length := by
  refine ⟨?_, ?_, ?_, ?_⟩
  · rw [isRateLimited_owner]
  · rw [handlePhoto_owner_success]
    simp [recordUpload]
  · induction n generalizing s with
    | zero => simp [iterOwnerUploads]
    | succ k ih =>
      rw [iterOwnerUploads, handlePhoto_owner_success, ih]
      simp [recordUpload, List.replicate_succ]
  · decide
